import Mathlib

/-
Shallow embedding of the telemetry core of the Suspicious-Behaviour-App
repository:

* `TelemetryManagerMongoDB` (src/telemetry_manager_mongodb.py),
* `MongoDBHandler` (src/app/db/mongo_handler.py),
* the legacy `TelemetryManager` (src/old_sqlite_system/telemetry_manager.py).

Python floats that occur in this code carry exact decimal values, so they are
modelled by rationals.  Exceptions are modelled by an explicit result type
(`Res`), the instance `threading.Lock` by a hold-depth counter in the state
(acquiring a held non-reentrant lock blocks forever, modelled as `Res.hang`),
and the storage backend by in-state lists plus an oracle saying which storage
calls succeed.
-/

/-- Python exception kinds that the embedded code can raise. -/
inductive PyErr where
  | pymongo
  | keyError
  | jsonDecode
  | zeroDiv
deriving DecidableEq

/-- Scalar-or-flat-dict values stored in metric/alert metadata dictionaries. -/
inductive MVal where
  | s (v : String)
  | q (v : ℚ)
  | m (kvs : List (String × String))
deriving DecidableEq

/-- A Python dict with string keys, as used for `metadata` and alert `data`. -/
abbrev PyDict := List (String × MVal)

/-- Dictionary lookup, `d.get(k)`. -/
def PyDict.get (d : PyDict) (k : String) : Option MVal :=
  (d.find? (fun kv => kv.1 == k)).map (·.2)

/-- The `alert_thresholds` dict: string keys to numeric thresholds. -/
abbrev ThDict := List (String × ℚ)

/-- Bracket lookup on the thresholds dict; `none` models a `KeyError`. -/
def thGet (d : ThDict) (k : String) : Option ℚ :=
  (d.find? (fun kv => kv.1 == k)).map (·.2)

/-- The built-in default thresholds of `TelemetryManagerMongoDB.__init__`
(also the defaults of the sqlite `TelemetryManager.__init__`). -/
def defaultThresholds : ThDict :=
  [("latency", 3000), ("cost", 5 / 1000), ("error_rate", 1 / 10),
   ("cpu_usage", 80), ("memory_usage", 85)]

/-- One document of the `telemetry` MongoDB collection, as built by
`TelemetryManagerMongoDB.record_metric`. -/
structure MetricRecord where
  metric_type : String
  value : ℚ
  metadata : PyDict
  timestamp : ℚ
deriving DecidableEq

/-- One document of the `alerts` MongoDB collection, as built by
`MongoDBHandler.save_alert`. -/
structure AlertDoc where
  alert_type : String
  severity : String
  data : PyDict
  timestamp : ℚ
  resolved : Bool
deriving DecidableEq

/-- The in-memory `Alert` dataclass of telemetry_manager_mongodb.py. -/
structure Alert where
  timestamp : ℚ
  alert_type : String
  severity : String
  data : PyDict
  resolved : Bool := false
deriving DecidableEq

/-- The `health_data` document built by `get_system_health`. -/
structure HealthDoc where
  uptime_seconds : ℚ
  total_operations : ℕ
  error_count : ℕ
  error_rate : ℚ
  avg_latency_ms : ℚ
  total_cost_usd : ℚ
  active_alerts : ℕ
  timestamp : ℚ
deriving DecidableEq

/-- The in-memory `self.metrics` running-counter block. -/
structure Metrics where
  error_count : ℕ
  total_operations : ℕ
  total_latency : ℚ
  total_cost : ℚ
  start_time : ℚ
deriving DecidableEq

/-- The relevant collections of the MongoDB store. -/
structure MongoState where
  telemetry : List MetricRecord
  alerts : List AlertDoc
  system_health : List HealthDoc
deriving DecidableEq

/-- Oracle describing which storage/webhook calls succeed, plus the object id
MongoDB assigns to the next insert. -/
structure StoreOracle where
  telemetry_ok : Bool
  alerts_ok : Bool
  health_ok : Bool
  get_ok : Bool
  find_ok : Bool
  webhook_ok : Bool
  next_id : String
deriving DecidableEq

/-- The oracle on which every storage and webhook call succeeds. -/
def oracleOK : StoreOracle := ⟨true, true, true, true, true, true, "id0"⟩

/-- The oracle on which every storage and webhook call fails. -/
def oracleFail : StoreOracle := ⟨false, false, false, false, false, false, "id0"⟩

/-- Full state of one `TelemetryManagerMongoDB` instance together with its
store: thresholds, running counters, in-memory alert list, lock hold depth,
MongoDB collections and the `ALERT_WEBHOOK` environment value. -/
structure TState where
  alert_thresholds : ThDict
  metrics : Metrics
  alerts : List Alert
  lockDepth : ℕ
  mongo : MongoState
  webhook_url : Option String
deriving DecidableEq

/-- Outcome of running one embedded Python call: normal return with a value
and the post-state, an uncaught exception with the state at raise time, or
blocking forever on the instance lock. -/
inductive Res (α : Type) where
  | ok (a : α) (s : TState)
  | exc (e : PyErr) (s : TState)
  | hang
deriving DecidableEq

/-- Sequencing: run the continuation only on a normal return. -/
def Res.bind {α β : Type} (r : Res α) (f : α → TState → Res β) : Res β :=
  match r with
  | .ok a s => f a s
  | .exc e s => .exc e s
  | .hang => .hang

/-- Whether the call returned normally. -/
def Res.isOk {α : Type} : Res α → Bool
  | .ok _ _ => true
  | _ => false

/-- The exception kind, when the call raised. -/
def Res.excKind {α : Type} : Res α → Option PyErr
  | .exc e _ => some e
  | _ => none

/-- The returned value, when the call returned normally. -/
def Res.okVal {α : Type} : Res α → Option α
  | .ok a _ => some a
  | _ => none

/-- The post-state, when the call returned normally. -/
def Res.okState {α : Type} : Res α → Option TState
  | .ok _ s => some s
  | _ => none

/-- The state at raise time, when the call raised. -/
def Res.excState {α : Type} : Res α → Option TState
  | .exc _ s => some s
  | _ => none

/-- A `with self.lock:` block.  `reentrant = false` is the source's
`threading.Lock`: acquiring it while it is already held by the same thread
blocks forever (`hang`).  `reentrant = true` is the `threading.RLock`
semantics the surrounding design assumes.  The lock is released both on
normal exit and when an exception unwinds the `with` block. -/
def withLock {α : Type} (reentrant : Bool) (body : TState → Res α) (s : TState) : Res α :=
  if s.lockDepth ≠ 0 ∧ reentrant = false then .hang
  else
    match body { s with lockDepth := s.lockDepth + 1 } with
    | .ok a s' => .ok a { s' with lockDepth := s'.lockDepth - 1 }
    | .exc e s' => .exc e { s' with lockDepth := s'.lockDepth - 1 }
    | .hang => .hang

/-- A `try: ... except Exception: ...` block; the handler runs from the state
at raise time. -/
def tryExcept {α : Type} (body : TState → Res α) (handler : PyErr → TState → Res α)
    (s : TState) : Res α :=
  match body s with
  | .exc e s' => handler e s'
  | r => r

/-- Checked division; `none` models a `ZeroDivisionError`. -/
def qdiv (a b : ℚ) : Option ℚ := if b = 0 then none else some (a / b)

/-- `MongoDBHandler.save_telemetry`: inserts the metric document (the caller
`record_metric` already set its timestamp, so the handler keeps it); on a
storage error it logs and re-raises the `PyMongoError`. -/
def save_telemetry (o : StoreOracle) (rec0 : MetricRecord) (s : TState) : Res String :=
  if o.telemetry_ok then
    .ok o.next_id { s with mongo := { s.mongo with telemetry := s.mongo.telemetry ++ [rec0] } }
  else .exc .pymongo s

/-- `MongoDBHandler.save_alert`: builds the alert document with a fresh
timestamp and `resolved = False` and inserts it; on a storage error it logs
and re-raises the `PyMongoError`. -/
def save_alert (o : StoreOracle) (now : ℚ) (alert_type severity : String) (data : PyDict)
    (s : TState) : Res String :=
  if o.alerts_ok then
    .ok o.next_id
      { s with mongo :=
        { s.mongo with alerts := s.mongo.alerts ++ [⟨alert_type, severity, data, now, false⟩] } }
  else .exc .pymongo s

/-- Insertion into a list kept sorted by descending timestamp (stable). -/
def insertDesc (a : AlertDoc) : List AlertDoc → List AlertDoc
  | [] => [a]
  | b :: rest => if a.timestamp ≤ b.timestamp then b :: insertDesc a rest else a :: b :: rest

/-- Sort alert documents by timestamp, most recent first, as the handler's
`find().sort("timestamp", DESCENDING)` does. -/
def sortTimestampDesc : List AlertDoc → List AlertDoc
  | [] => []
  | a :: rest => insertDesc a (sortTimestampDesc rest)

/-- `MongoDBHandler.get_alerts` (no `resolved` filter, as the manager calls
it): most recent `limit` alert documents; a `PyMongoError` is caught inside
the handler, which then returns the empty list. -/
def get_alerts (o : StoreOracle) (limit : ℕ) (s : TState) : Res (List AlertDoc) :=
  if o.get_ok then .ok ((sortTimestampDesc s.mongo.alerts).take limit) s
  else .ok [] s

/-- `TelemetryManagerMongoDB.record_metric`: builds the metric document
(`metadata or \x7b\x7d`, timestamp now) and saves it inside `try/except`;
on any failure it logs and returns the empty identifier. -/
def record_metric (o : StoreOracle) (now : ℚ) (metric_type : String) (value : ℚ)
    (metadata : Option PyDict) (s : TState) : Res String :=
  tryExcept
    (fun s0 => save_telemetry o ⟨metric_type, value, metadata.getD [], now⟩ s0)
    (fun _ s1 => .ok "" s1) s

/-- The static `severity_map` of `send_alert`. -/
def severity_map : List (String × String) :=
  [("high_error_rate", "critical"), ("critical_failure", "critical"),
   ("high_latency", "warning"), ("high_cost", "warning")]

/-- `severity_map.get(alert_type, "info")` of `send_alert`. -/
def severityOf (alert_type : String) : String :=
  ((severity_map.find? (fun kv => kv.1 == alert_type)).map (·.2)).getD "info"

/-- The tail of `send_alert`: read `ALERT_WEBHOOK` from the environment and,
when set, POST the alert with `timeout=2` inside `try/except`; delivery
failure or timeout is logged and swallowed, so the call always returns
normally and leaves the state unchanged. -/
def webhook_post (s2 : TState) : Res Unit :=
  match s2.webhook_url with
  | some _ => .ok () s2
  | none => .ok () s2

/-- `TelemetryManagerMongoDB.send_alert`: under the instance lock, classify
severity (default "info"), append the alert to the in-memory list, persist it
to MongoDB inside `try/except`, and POST to the webhook (when configured)
inside `try/except`; neither failure propagates. -/
def send_alert (re : Bool) (o : StoreOracle) (now : ℚ) (alert_type : String) (data : PyDict)
    (s : TState) : Res Unit :=
  withLock re (fun s0 =>
    let severity := severityOf alert_type
    let s1 := { s0 with alerts := s0.alerts ++ [⟨now, alert_type, severity, data, false⟩] }
    Res.bind
      (tryExcept (fun t => save_alert o now alert_type severity data t)
        (fun _ t => .ok "" t) s1)
      (fun _ s2 => webhook_post s2)) s

/-- A fresh manager state over a given store, as `__init__` leaves it when
configuration loading yielded no `thresholds` entry. -/
def freshState (now : ℚ) : TState :=
  { alert_thresholds := defaultThresholds
    metrics := ⟨0, 0, 0, 0, now⟩
    alerts := []
    lockDepth := 0
    mongo := ⟨[], [], []⟩
    webhook_url := none }

/-- TelemetryManagerMongoDB.record_error: under the instance lock, increment
`error_count`, record an `error` metric with context, recompute the running
error rate with the denominator floored at 1, and send a `high_error_rate`
alert when the rate strictly exceeds `alert_thresholds["error_rate"]` (a
bracket lookup, so a missing key is a `KeyError`). -/
def record_error (re : Bool) (o : StoreOracle) (now : ℚ) (error_type : String)
    (details : Option (List (String × String))) (s : TState) : Res Unit :=
  withLock re (fun s0 =>
    let m1 := { s0.metrics with error_count := s0.metrics.error_count + 1 }
    let error_data : PyDict :=
      [("error_type", .s error_type), ("details", .m (details.getD [])),
       ("total_errors", .q m1.error_count)]
    Res.bind (record_metric o now "error" 1 (some error_data) { s0 with metrics := m1 })
      (fun _ s2 =>
        match qdiv (s2.metrics.error_count : ℚ) ((max 1 s2.metrics.total_operations : ℕ) : ℚ) with
        | none => .exc .zeroDiv s2
        | some error_rate =>
          match thGet s2.alert_thresholds "error_rate" with
          | none => .exc .keyError s2
          | some thr =>
            if error_rate > thr then
              send_alert re o now "high_error_rate"
                [("error_rate", .q error_rate),
                 ("total_errors", .q s2.metrics.error_count),
                 ("total_operations", .q s2.metrics.total_operations)] s2
            else .ok () s2)) s

/-- First half of `_check_alert_conditions`: the list of `(alert_type, value)`
triggers built from the observation, each rule a strict greater-than
comparison against the configured `latency` / `cost` thresholds (bracket
lookups). -/
def triggeredAlerts (th : ThDict) (latency_ms cost_usd : ℚ) : Except PyErr (List (String × ℚ)) :=
  match thGet th "latency" with
  | none => .error .keyError
  | some thl =>
    let l1 := if latency_ms > thl then [("high_latency", latency_ms)] else []
    match thGet th "cost" with
    | none => .error .keyError
    | some thc =>
      let l2 := if cost_usd > thc then [("high_cost", cost_usd)] else []
      .ok (l1 ++ l2)

/-- Second half of `_check_alert_conditions`: for each trigger, look up
`self.alert_thresholds[alert_type]` (the source uses the alert type, e.g.
"high_latency", as the key — a `KeyError` under the default thresholds) and
send the alert. -/
def sendTriggered (re : Bool) (o : StoreOracle) (now : ℚ) :
    List (String × ℚ) → TState → Res Unit
  | [], s => .ok () s
  | (ty, v) :: rest, s =>
    match thGet s.alert_thresholds ty with
    | none => .exc .keyError s
    | some thv =>
      Res.bind (send_alert re o now ty [("value", .q v), ("threshold", .q thv)] s)
        (fun _ s' => sendTriggered re o now rest s')

/-- TelemetryManagerMongoDB._check_alert_conditions. -/
def check_alert_conditions (re : Bool) (o : StoreOracle) (now : ℚ)
    (latency_ms cost_usd : ℚ) (s : TState) : Res Unit :=
  match triggeredAlerts s.alert_thresholds latency_ms cost_usd with
  | .error e => .exc e s
  | .ok l => sendTriggered re o now l s

/-- TelemetryManagerMongoDB.record_operation: under the instance lock, bump
the running counters; on failure additionally bump `error_count` and call
`record_error` (which acquires the lock again); then record the latency (and,
when positive, cost) metrics and check the alert conditions. -/
def record_operation (re : Bool) (o : StoreOracle) (now : ℚ)
    (latency_ms cost_usd : ℚ) (success : Bool) (s : TState) : Res Unit :=
  withLock re (fun s0 =>
    let m1 := { s0.metrics with
                total_operations := s0.metrics.total_operations + 1
                total_latency := s0.metrics.total_latency + latency_ms
                total_cost := s0.metrics.total_cost + cost_usd }
    let r2 :=
      if success then .ok () { s0 with metrics := m1 }
      else
        record_error re o now "general" none
          { s0 with metrics := { m1 with error_count := m1.error_count + 1 } }
    Res.bind r2 (fun _ s2 =>
      Res.bind (record_metric o now "latency" latency_ms none s2) (fun _ s3 =>
        Res.bind
          (if cost_usd > 0 then record_metric o now "cost" cost_usd none s3
           else .ok "" s3)
          (fun _ s4 => check_alert_conditions re o now latency_ms cost_usd s4)))) s

/-- The `health_data` dictionary built by `get_system_health` from the
running counters, given the two already-computed quotients. -/
def health_doc (now : ℚ) (s0 : TState) (error_rate avg_latency : ℚ) : HealthDoc :=
  ⟨now - s0.metrics.start_time, s0.metrics.total_operations, s0.metrics.error_count,
   error_rate, avg_latency, s0.metrics.total_cost,
   (s0.alerts.filter (fun a => !a.resolved)).length, now⟩

/-- The raw `self.mongo.system_health.insert_one(health_data)` call: raises a
`PyMongoError` when the write fails. -/
def insert_system_health (o : StoreOracle) (h : HealthDoc) (t : TState) : Res Unit :=
  if o.health_ok then
    .ok () { t with mongo := { t.mongo with system_health := t.mongo.system_health ++ [h] } }
  else .exc .pymongo t

/-- TelemetryManagerMongoDB.get_system_health: under the instance lock,
compute the health snapshot (denominators floored at 1), insert it into the
`system_health` collection inside `try/except`, and return it. -/
def get_system_health (re : Bool) (o : StoreOracle) (now : ℚ) (s : TState) :
    Res HealthDoc :=
  withLock re (fun s0 =>
    match qdiv (s0.metrics.error_count : ℚ) ((max 1 s0.metrics.total_operations : ℕ) : ℚ) with
    | none => .exc .zeroDiv s0
    | some error_rate =>
      match qdiv s0.metrics.total_latency ((max 1 s0.metrics.total_operations : ℕ) : ℚ) with
      | none => .exc .zeroDiv s0
      | some avg_latency =>
        Res.bind
          (tryExcept (insert_system_health o (health_doc now s0 error_rate avg_latency))
            (fun _ t => .ok () t) s0)
          (fun _ s1 => .ok (health_doc now s0 error_rate avg_latency) s1)) s

/-- TelemetryManagerMongoDB.get_recent_alerts: `mongo.get_alerts` inside
`try/except`, returning the empty list on failure. -/
def get_recent_alerts (o : StoreOracle) (limit : ℕ) (s : TState) :
    Res (List AlertDoc) :=
  tryExcept (fun s0 => get_alerts o limit s0) (fun _ s1 => .ok [] s1) s

/-- Python `float("inf")` / `float("-inf")` sentinels used by the summary's
min/max accumulators. -/
inductive PyFloat where
  | fin (v : ℚ)
  | inf
  | ninf
deriving DecidableEq

/-- `min(acc, v)` where `acc` may be the `inf` sentinel. -/
def pymin : PyFloat → ℚ → PyFloat
  | .fin a, b => .fin (min a b)
  | .inf, b => .fin b
  | .ninf, _ => .ninf

/-- `max(acc, v)` where `acc` may be the `-inf` sentinel. -/
def pymax : PyFloat → ℚ → PyFloat
  | .fin a, b => .fin (max a b)
  | .inf, _ => .inf
  | .ninf, b => .fin b

/-- One per-metric-type bucket of the summary (source keys `count`, `sum`,
`avg`, `min`, `max`). -/
structure MetricStats where
  count : ℕ
  sum : ℚ
  avg : ℚ
  minv : PyFloat
  maxv : PyFloat
deriving DecidableEq

/-- Fold one record's value into a bucket. -/
def updateStats (st : MetricStats) (v : ℚ) : MetricStats :=
  { st with count := st.count + 1, sum := st.sum + v,
            minv := pymin st.minv v, maxv := pymax st.maxv v }

/-- Insert-or-update the bucket for `ty` in the insertion-ordered dict,
creating it as `(count 0, sum 0, avg 0, min inf, max -inf)` first. -/
def bucketUpdate : List (String × MetricStats) → String → ℚ → List (String × MetricStats)
  | [], ty, v => [(ty, updateStats ⟨0, 0, 0, .inf, .ninf⟩ v)]
  | (k, st) :: rest, ty, v =>
    if k == ty then (k, updateStats st v) :: rest
    else (k, st) :: bucketUpdate rest ty v

/-- The second pass of `get_metrics_summary`: fill in each bucket's average
when its count is positive. -/
def applyAvg (l : List (String × MetricStats)) : List (String × MetricStats) :=
  l.map (fun kv =>
    if kv.2.count > 0 then (kv.1, { kv.2 with avg := kv.2.sum / (kv.2.count : ℚ) }) else kv)

/-- Count one alert document into the per-severity dict. -/
def sevUpdate : List (String × ℕ) → String → List (String × ℕ)
  | [], sev => [(sev, 1)]
  | (k, n) :: rest, sev =>
    if k == sev then (k, n + 1) :: rest else (k, n) :: sevUpdate rest sev

/-- The dictionary returned by `get_metrics_summary` on its success path. -/
structure Summary where
  metrics : List (String × MetricStats)
  alerts : List (String × ℕ)
  time_range_hours : ℕ
  total_records : ℕ
deriving DecidableEq

/-- The `timestamp >= cutoff` window filter used by the summary's two `find`
queries (cutoff is `now - hours * 3600`). -/
def windowFilter (cutoff : ℚ) (l : List MetricRecord) : List MetricRecord :=
  l.filter (fun r => decide (cutoff ≤ r.timestamp))

/-- TelemetryManagerMongoDB.get_metrics_summary: the whole body runs inside
`try/except`; on any failure it returns the empty dict, modelled as `none`. -/
def get_metrics_summary (o : StoreOracle) (now : ℚ) (hours : ℕ) (s : TState) :
    Res (Option Summary) :=
  tryExcept
    (fun s0 =>
      if o.find_ok then
        let cutoff := now - (hours : ℚ) * 3600
        let metrics_data := windowFilter cutoff s0.mongo.telemetry
        let metrics_summary :=
          applyAvg (metrics_data.foldl (fun acc r => bucketUpdate acc r.metric_type r.value) [])
        let alerts_data := s0.mongo.alerts.filter (fun a => decide (cutoff ≤ a.timestamp))
        let alerts_summary := alerts_data.foldl (fun acc a => sevUpdate acc a.severity) []
        .ok (some ⟨metrics_summary, alerts_summary, hours,
                   (metrics_summary.map (fun kv => kv.2.count)).sum⟩) s0
      else .exc .pymongo s0)
    (fun _ s1 => .ok none s1) s

/-- N sequential `record_operation(0, 0, success=False)` calls; because the
whole body of each call runs under the one instance lock, any parallel
schedule of N such callers is serialized into this shape. -/
def iterFailedOps (re : Bool) (o : StoreOracle) (now : ℚ) : ℕ → TState → Res Unit
  | 0, s => .ok () s
  | n + 1, s =>
    Res.bind (record_operation re o now 0 0 false s)
      (fun _ s' => iterFailedOps re o now n s')

/-- The parsed configuration object: the optional `thresholds` entry of the
JSON file. -/
structure Config where
  thresholds : Option ThDict
deriving DecidableEq

/-- The possible configuration sources at construction time. -/
inductive ConfigSrc where
  | noPath
  | missing (path : String)
  | invalid (path : String)
  | valid (path : String) (cfg : Config)
deriving DecidableEq

/-- TelemetryManagerMongoDB._load_config: a missing path or absent file yields
the empty config; a load/parse failure is caught, logged as a warning, and
also yields the empty config. -/
def load_config_mongo : ConfigSrc → Except PyErr Config
  | .noPath => .ok ⟨none⟩
  | .missing _ => .ok ⟨none⟩
  | .invalid _ => .ok ⟨none⟩
  | .valid _ cfg => .ok cfg

/-- TelemetryManager._load_config of the sqlite variant: same shape but with
no `try/except`, so a load/parse failure propagates (`json.load` raises). -/
def load_config_sqlite : ConfigSrc → Except PyErr Config
  | .noPath => .ok ⟨none⟩
  | .missing _ => .ok ⟨none⟩
  | .invalid _ => .error .jsonDecode
  | .valid _ cfg => .ok cfg

/-- `self.config.get("thresholds", defaults)` of both constructors. -/
def init_thresholds (cfg : Config) : ThDict := cfg.thresholds.getD defaultThresholds

/-- The configuration-and-counters phase of `TelemetryManagerMongoDB.__init__`
over an existing store: load the config, derive the thresholds, zero the
counters and build the instance state. -/
def init_mongo_manager (src : ConfigSrc) (now : ℚ) (store : MongoState) :
    Except PyErr TState :=
  (load_config_mongo src).map (fun cfg =>
    { alert_thresholds := init_thresholds cfg
      metrics := ⟨0, 0, 0, 0, now⟩
      alerts := []
      lockDepth := 0
      mongo := store
      webhook_url := none })

/-- The configuration phase of the sqlite `TelemetryManager.__init__`. -/
def init_sqlite_thresholds (src : ConfigSrc) : Except PyErr ThDict :=
  (load_config_sqlite src).map init_thresholds

/-- One row of the sqlite `metrics` table (id and metadata omitted — no
embedded claim depends on them). -/
structure SqRow where
  timestamp : ℚ
  metric_type : String
  value : ℚ
deriving DecidableEq

/-- One row of the sqlite `alerts` table, reduced to the fields the summary
reads. -/
structure SqAlertRow where
  timestamp : ℚ
  severity : String
deriving DecidableEq

/-- Accumulate a row into the per-type (sum, count) groups of the sqlite
`GROUP BY metric_type` aggregation. -/
def sqGroupUpdate : List (String × ℚ × ℕ) → String → ℚ → List (String × ℚ × ℕ)
  | [], ty, v => [(ty, v, 1)]
  | (k, sm, c) :: rest, ty, v =>
    if k == ty then (k, sm + v, c + 1) :: rest
    else (k, sm, c) :: sqGroupUpdate rest ty v

/-- The summary of the sqlite `TelemetryManager.get_metrics_summary`: per-type
`(avg, count)` buckets and per-severity alert counts.  Unlike the MongoDB
variant it reports no total-record count at all. -/
structure SqSummary where
  metrics : List (String × ℚ × ℕ)
  alerts : List (String × ℕ)
  time_range_hours : ℕ
deriving DecidableEq

/-- TelemetryManager.get_metrics_summary of the sqlite variant: scans rows
with `timestamp > cutoff` (strict), groups metrics by type into
`(AVG(value), COUNT(*))` and alerts by severity into counts. -/
def sqlite_metrics_summary (store : List SqRow) (alertRows : List SqAlertRow)
    (now : ℚ) (hours : ℕ) : SqSummary :=
  let cutoff := now - (hours : ℚ) * 3600
  let rows := store.filter (fun r => decide (cutoff < r.timestamp))
  let groups := rows.foldl (fun acc r => sqGroupUpdate acc r.metric_type r.value) []
  let arows := alertRows.filter (fun a => decide (cutoff < a.timestamp))
  ⟨groups.map (fun g => (g.1, g.2.1 / (g.2.2 : ℚ), g.2.2)),
   arows.foldl (fun acc a => sevUpdate acc a.severity) [], hours⟩

/-- A call outcome that is not an uncaught exception of kind `x`. -/
def Res.avoids {α : Type} (x : PyErr) : Res α → Prop
  | .exc e _ => e ≠ x
  | _ => True

/-- A thresholds dictionary a configuration file could supply, containing a
`high_latency` key in addition to the default keys, so that the
`alert_thresholds[alert_type]` lookup of `_check_alert_conditions` succeeds. -/
def extThresholds : ThDict := defaultThresholds ++ [("high_latency", 3000)]

/-
Helper lemmas: evaluated dictionary lookups and composition facts used by
the claim theorems.
-/

theorem thGet_default_latency : thGet defaultThresholds "latency" = some 3000 := rfl

theorem thGet_default_cost : thGet defaultThresholds "cost" = some (5 / 1000) := rfl

theorem thGet_default_error_rate : thGet defaultThresholds "error_rate" = some (1 / 10) := rfl

theorem thGet_default_high_latency : thGet defaultThresholds "high_latency" = none := rfl

theorem thGet_default_high_cost : thGet defaultThresholds "high_cost" = none := rfl

theorem severityOf_high_error_rate : severityOf "high_error_rate" = "critical" := rfl

theorem severityOf_high_latency : severityOf "high_latency" = "warning" := rfl

theorem severityOf_high_cost : severityOf "high_cost" = "warning" := rfl

/-- The quotients of the telemetry core never have a zero denominator: the
`max(1, total_operations)` floor keeps `qdiv` total. -/
theorem qdiv_max_one (a : ℚ) (n : ℕ) :
    qdiv a ((max 1 n : ℕ) : ℚ) = some (a / ((max 1 n : ℕ) : ℚ)) := by
  have h2 : ((max 1 n : ℕ) : ℚ) ≠ 0 := by
    have h1 : (0 : ℕ) < max 1 n := lt_of_lt_of_le Nat.zero_lt_one (le_max_left 1 n)
    exact_mod_cast Nat.pos_iff_ne_zero.mp h1
  unfold qdiv
  rw [if_neg h2]

theorem bind_avoids {α β : Type} {x : PyErr} {r : Res α} {f : α → TState → Res β}
    (hr : r.avoids x) (hf : ∀ a s, (f a s).avoids x) : (Res.bind r f).avoids x := by
  cases r with
  | ok a s => exact hf a s
  | exc e s => exact hr
  | hang => exact trivial

theorem withLock_avoids {α : Type} {x : PyErr} {re : Bool} {body : TState → Res α}
    {s : TState} (hb : ∀ t, (body t).avoids x) : (withLock re body s).avoids x := by
  unfold withLock
  split
  · exact trivial
  · have h := hb { s with lockDepth := s.lockDepth + 1 }
    cases hres : body { s with lockDepth := s.lockDepth + 1 } with
    | ok a s' => exact trivial
    | exc e s' => rw [hres] at h; exact h
    | hang => exact trivial

theorem tryExcept_avoids {α : Type} {x : PyErr} {body : TState → Res α}
    {handler : PyErr → TState → Res α} {s : TState}
    (hh : ∀ e t, (handler e t).avoids x) : (tryExcept body handler s).avoids x := by
  unfold tryExcept
  cases body s with
  | ok a s' => exact trivial
  | exc e s' => exact hh e s'
  | hang => exact trivial

/-- `record_metric` always returns normally (its `try/except` swallows the
storage failure). -/
theorem record_metric_ok (o : StoreOracle) (now : ℚ) (ty : String) (v : ℚ)
    (md : Option PyDict) (s : TState) :
    ∃ r t, record_metric o now ty v md s = .ok r t := by
  unfold record_metric tryExcept save_telemetry
  by_cases h : o.telemetry_ok <;> simp [h]

theorem record_metric_avoids (x : PyErr) (o : StoreOracle) (now : ℚ) (ty : String) (v : ℚ)
    (md : Option PyDict) (s : TState) : (record_metric o now ty v md s).avoids x := by
  obtain ⟨r, t, h⟩ := record_metric_ok o now ty v md s
  rw [h]; exact trivial

theorem webhook_post_eq (s2 : TState) : webhook_post s2 = .ok () s2 := by
  unfold webhook_post
  cases s2.webhook_url <;> rfl

theorem send_alert_avoids (x : PyErr) (re : Bool) (o : StoreOracle) (now : ℚ) (ty : String)
    (d : PyDict) (s : TState) : (send_alert re o now ty d s).avoids x := by
  unfold send_alert
  apply withLock_avoids
  intro t
  apply bind_avoids
  · exact tryExcept_avoids (fun _ _ => trivial)
  · intro a u
    rw [webhook_post_eq]
    exact trivial

theorem record_error_avoids (x : PyErr) (hx : x ≠ .keyError) (re : Bool) (o : StoreOracle)
    (now : ℚ) (ty : String) (dt : Option (List (String × String))) (s : TState) :
    (record_error re o now ty dt s).avoids x := by
  unfold record_error
  apply withLock_avoids
  intro t
  apply bind_avoids (record_metric_avoids ..)
  intro a u
  simp only [qdiv_max_one]
  cases h : thGet u.alert_thresholds "error_rate" with
  | none =>
    simp only [h]
    exact fun hh => hx hh.symm
  | some thr =>
    simp only [h]
    split
    · exact send_alert_avoids ..
    · exact trivial

theorem sendTriggered_avoids (x : PyErr) (hx : x ≠ .keyError) (re : Bool) (o : StoreOracle)
    (now : ℚ) (l : List (String × ℚ)) (s : TState) : (sendTriggered re o now l s).avoids x := by
  induction l generalizing s with
  | nil => exact trivial
  | cons p rest ih =>
    unfold sendTriggered
    cases h : thGet s.alert_thresholds p.1 with
    | none =>
      simp only [h]
      exact fun hh => hx hh.symm
    | some thv =>
      simp only [h]
      exact bind_avoids (send_alert_avoids ..) (fun _ t => ih t)

theorem check_alert_conditions_avoids (x : PyErr) (hx : x ≠ .keyError) (re : Bool)
    (o : StoreOracle) (now : ℚ) (l c : ℚ) (s : TState) :
    (check_alert_conditions re o now l c s).avoids x := by
  unfold check_alert_conditions triggeredAlerts
  cases h1 : thGet s.alert_thresholds "latency" with
  | none =>
    simp only [h1]
    exact fun hh => hx hh.symm
  | some thl =>
    cases h2 : thGet s.alert_thresholds "cost" with
    | none =>
      simp only [h1, h2]
      exact fun hh => hx hh.symm
    | some thc =>
      simp only [h1, h2]
      exact sendTriggered_avoids x hx ..

theorem record_operation_avoids (x : PyErr) (hx : x ≠ .keyError) (re : Bool) (o : StoreOracle)
    (now : ℚ) (l c : ℚ) (success : Bool) (s : TState) :
    (record_operation re o now l c success s).avoids x := by
  unfold record_operation
  apply withLock_avoids
  intro t
  apply bind_avoids
  · split
    · exact trivial
    · exact record_error_avoids x hx ..
  · intro a u
    apply bind_avoids (record_metric_avoids ..)
    intro b v
    apply bind_avoids
    · split
      · exact record_metric_avoids ..
      · exact trivial
    · intro d2 w
      exact check_alert_conditions_avoids x hx ..

theorem get_system_health_avoids (x : PyErr) (re : Bool) (o : StoreOracle) (now : ℚ)
    (s : TState) : (get_system_health re o now s).avoids x := by
  unfold get_system_health
  apply withLock_avoids
  intro t
  simp only [qdiv_max_one]
  exact bind_avoids (tryExcept_avoids (fun _ _ => trivial)) (fun _ _ => trivial)

theorem get_recent_alerts_avoids (x : PyErr) (o : StoreOracle) (limit : ℕ) (s : TState) :
    (get_recent_alerts o limit s).avoids x := by
  unfold get_recent_alerts
  exact tryExcept_avoids (fun _ _ => trivial)

theorem get_metrics_summary_avoids (x : PyErr) (o : StoreOracle) (now : ℚ) (hours : ℕ)
    (s : TState) : (get_metrics_summary o now hours s).avoids x := by
  unfold get_metrics_summary
  exact tryExcept_avoids (fun _ _ => trivial)

theorem thGet_ext_latency : thGet extThresholds "latency" = some 3000 := rfl

theorem thGet_ext_cost : thGet extThresholds "cost" = some (5 / 1000) := rfl

theorem thGet_ext_high_latency : thGet extThresholds "high_latency" = some 3000 := rfl

/-- A failed operation recorded from an un-held lock deadlocks: the body of
`record_operation` holds the non-reentrant instance lock when it calls
`record_error`, which tries to acquire the same lock again. -/
theorem record_op_fail_hang (o : StoreOracle) (now l c : ℚ) (s : TState)
    (h : s.lockDepth = 0) : record_operation false o now l c false s = .hang := by
  unfold record_operation record_error
  simp [h, withLock, Res.bind]

/-- Any positive number of sequential failed operations from an un-held lock
deadlocks on the first one. -/
theorem iterFailedOps_hang (o : StoreOracle) (now : ℚ) (n : ℕ) (s : TState)
    (h : s.lockDepth = 0) : iterFailedOps false o now (n + 1) s = .hang := by
  unfold iterFailedOps
  rw [record_op_fail_hang o now 0 0 s h]
  rfl

/-
Claim theorems.
-/

/-- Claim C1: for every caller-facing telemetry operation (record_operation,
record_metric, record_error, send_alert, get_system_health,
get_recent_alerts, get_metrics_summary), a failure of the underlying storage
write is never propagated to the caller as an exception — for every oracle,
including the one on which every storage write fails, no outcome is an
uncaught PyMongoError — and when `record_metric`'s storage write fails the
call returns normally with the empty sentinel identifier and an unchanged
state.  Contrary to the claim's "the operation returns normally", however, a
`record_error` call on a fresh manager never returns at all (it deadlocks
re-acquiring the held non-reentrant lock inside `send_alert`), with failing
storage as much as with working storage. -/
theorem claim_C1_storage_failures_swallowed :
    (∀ re o now l c success s, (record_operation re o now l c success s).avoids .pymongo) ∧
    (∀ o now ty v md s, (record_metric o now ty v md s).avoids .pymongo) ∧
    (∀ re o now ty dt s, (record_error re o now ty dt s).avoids .pymongo) ∧
    (∀ re o now ty d s, (send_alert re o now ty d s).avoids .pymongo) ∧
    (∀ re o now s, (get_system_health re o now s).avoids .pymongo) ∧
    (∀ o limit s, (get_recent_alerts o limit s).avoids .pymongo) ∧
    (∀ o now hours s, (get_metrics_summary o now hours s).avoids .pymongo) ∧
    (∀ a2 b2 c2 d2 e2 nid now ty v md s,
      record_metric ⟨false, a2, b2, c2, d2, e2, nid⟩ now ty v md s = .ok "" s) ∧
    record_error false oracleFail 0 "general" none (freshState 0) = .hang ∧
    record_error false oracleOK 0 "general" none (freshState 0) = .hang := by
  refine ⟨?_, ?_, ?_, ?_, ?_, ?_, ?_, ?_, ?_, ?_⟩
  · exact fun re o now l c success s =>
      record_operation_avoids .pymongo (by simp) re o now l c success s
  · exact fun o now ty v md s => record_metric_avoids ..
  · exact fun re o now ty dt s => record_error_avoids .pymongo (by simp) ..
  · exact fun re o now ty d s => send_alert_avoids ..
  · exact fun re o now s => get_system_health_avoids ..
  · exact fun o limit s => get_recent_alerts_avoids ..
  · exact fun o now hours s => get_metrics_summary_avoids ..
  · intro a2 b2 c2 d2 e2 nid now ty v md s
    simp [record_metric, tryExcept, save_telemetry]
  · norm_num [record_error, withLock, freshState, Res.bind, record_metric, tryExcept,
      save_telemetry, oracleFail, qdiv, send_alert, thGet_default_error_rate]
  · norm_num [record_error, withLock, freshState, Res.bind, record_metric, tryExcept,
      save_telemetry, oracleOK, qdiv, send_alert, thGet_default_error_rate]

/-- Claim C3: contrary to the claim, `record_operation` does not always
return to the caller.  On a fresh manager, the `success=False` path blocks
forever: `record_error` re-acquires the already-held non-reentrant instance
lock.  The over-threshold latency path terminates only because it raises an
uncaught `KeyError` first (`alert_thresholds["high_latency"]`), and under a
configuration whose thresholds dictionary does contain a `high_latency` key
that path also blocks forever inside `send_alert`.  An in-threshold
successful operation does return normally. -/
theorem claim_C3_record_operation_termination :
    record_operation false oracleOK 0 0 0 false (freshState 0) = .hang ∧
    (record_operation false oracleOK 0 3001 0 true (freshState 0)).excKind =
      some .keyError ∧
    record_operation false oracleOK 0 3001 0 true
      { freshState 0 with alert_thresholds := extThresholds } = .hang ∧
    (record_operation false oracleOK 0 100 0 true (freshState 0)).isOk = true := by
  refine ⟨?_, ?_, ?_, ?_⟩
  · exact record_op_fail_hang oracleOK 0 0 0 (freshState 0) rfl
  · norm_num [record_operation, withLock, freshState, Res.bind, record_metric,
      tryExcept, save_telemetry, oracleOK, check_alert_conditions, triggeredAlerts,
      sendTriggered, Res.excKind, thGet_default_latency, thGet_default_cost,
      thGet_default_high_latency]
  · norm_num [record_operation, withLock, freshState, Res.bind, record_metric,
      tryExcept, save_telemetry, oracleOK, check_alert_conditions, triggeredAlerts,
      sendTriggered, send_alert, thGet_ext_latency, thGet_ext_cost,
      thGet_ext_high_latency]
  · norm_num [record_operation, withLock, freshState, Res.bind, record_metric,
      tryExcept, save_telemetry, oracleOK, check_alert_conditions, triggeredAlerts,
      sendTriggered, Res.isOk, thGet_default_latency, thGet_default_cost]

/-- Claim C4: the threshold rules themselves are strict greater-than and
independent — the trigger list contains exactly one `high_latency` trigger
carrying the observed latency iff the latency strictly exceeds the threshold,
no `high_cost` trigger at or below the cost threshold, and one observation
can trigger both — but contrary to the claim, an over-threshold
`record_operation` produces no alert at all: the
`alert_thresholds[alert_type]` lookup in `_check_alert_conditions` raises an
uncaught `KeyError` (the alert type is not a key of the thresholds dict)
before `send_alert` runs, leaving both alert stores empty.  An in-threshold
call returns normally with no alerts. -/
theorem claim_C4_latency_cost_alert_rules :
    triggeredAlerts defaultThresholds 3001 0 = .ok [("high_latency", 3001)] ∧
    triggeredAlerts defaultThresholds 3001 1 =
      .ok [("high_latency", 3001), ("high_cost", 1)] ∧
    triggeredAlerts defaultThresholds 3000 (5 / 1000) = .ok [] ∧
    (record_operation false oracleOK 0 3001 0 true (freshState 0)).excKind =
      some .keyError ∧
    (record_operation false oracleOK 0 3001 0 true (freshState 0)).excState.map
      (fun t => (t.alerts, t.mongo.alerts)) = some ([], []) ∧
    (∃ t, record_operation false oracleOK 0 3000 (5 / 1000) true (freshState 0) =
        .ok () t ∧ t.alerts = [] ∧ t.mongo.alerts = []) := by
  refine ⟨?_, ?_, ?_, ?_, ?_, ?_⟩
  · norm_num [triggeredAlerts, thGet_default_latency, thGet_default_cost]
  · norm_num [triggeredAlerts, thGet_default_latency, thGet_default_cost]
  · norm_num [triggeredAlerts, thGet_default_latency, thGet_default_cost]
  · norm_num [record_operation, withLock, freshState, Res.bind, record_metric,
      tryExcept, save_telemetry, oracleOK, check_alert_conditions, triggeredAlerts,
      sendTriggered, Res.excKind, thGet_default_latency, thGet_default_cost,
      thGet_default_high_latency]
  · norm_num [record_operation, withLock, freshState, Res.bind, record_metric,
      tryExcept, save_telemetry, oracleOK, check_alert_conditions, triggeredAlerts,
      sendTriggered, Res.excState, thGet_default_latency, thGet_default_cost,
      thGet_default_high_latency]
  · norm_num [record_operation, withLock, freshState, Res.bind, record_metric,
      tryExcept, save_telemetry, oracleOK, check_alert_conditions, triggeredAlerts,
      sendTriggered, thGet_default_latency, thGet_default_cost]

/-- Claim C6: the error-rate and average-latency computations of the
telemetry core never divide by zero, for every counter state including
`total_operations = 0`: the `qdiv` on the `max(1, total_operations)` floor
always yields a value, `record_error` and `get_system_health` can never
raise a `ZeroDivisionError`, and `get_system_health` called with the lock
free returns normally for every oracle and state. -/
theorem claim_C6_division_floored :
    (∀ m : Metrics,
      qdiv (m.error_count : ℚ) ((max 1 m.total_operations : ℕ) : ℚ) =
        some ((m.error_count : ℚ) / ((max 1 m.total_operations : ℕ) : ℚ)) ∧
      qdiv m.total_latency ((max 1 m.total_operations : ℕ) : ℚ) =
        some (m.total_latency / ((max 1 m.total_operations : ℕ) : ℚ))) ∧
    (∀ re o now ty dt s, (record_error re o now ty dt s).avoids .zeroDiv) ∧
    (∀ re o now s, (get_system_health re o now s).avoids .zeroDiv) ∧
    (∀ o now th m al mo wu,
      (get_system_health false o now ⟨th, m, al, 0, mo, wu⟩).isOk = true) := by
  refine ⟨fun m => ⟨qdiv_max_one .., qdiv_max_one ..⟩, ?_, ?_, ?_⟩
  · exact fun re o now ty dt s => record_error_avoids .zeroDiv (by simp) ..
  · exact fun re o now s => get_system_health_avoids ..
  · intro o now th m al mo wu
    unfold get_system_health withLock
    simp only [qdiv_max_one]
    unfold tryExcept insert_system_health
    by_cases hh : o.health_ok <;> simp [hh, Res.bind, Res.isOk]

/-- Claim C7 counterexample: the claim fails on the SQLite-backed manager,
whose `_load_config` has no `try/except` — constructing it over an existing
but unparsable configuration file propagates the `json.load` error instead
of falling back to defaults. -/
theorem claim_C7_sqlite_config_parse_raises :
    init_sqlite_thresholds (.invalid "config.json") = .error .jsonDecode := rfl

/-- Claim C7 (amended): for the MongoDB-backed manager, construction's
configuration phase always succeeds, and with no configuration source, an
absent file, or a load/parse failure the thresholds equal the built-in
defaults (latency 3000, cost 0.005, error_rate 0.1, cpu_usage 80,
memory_usage 85); for the SQLite-backed manager the same holds for a missing
source or absent file, but a load/parse failure propagates out of
construction. -/
theorem claim_C7_defaults_on_config_failure :
    (∀ now store, (init_mongo_manager .noPath now store).map
      (fun st => st.alert_thresholds) = .ok defaultThresholds) ∧
    (∀ p now store, (init_mongo_manager (.missing p) now store).map
      (fun st => st.alert_thresholds) = .ok defaultThresholds) ∧
    (∀ p now store, (init_mongo_manager (.invalid p) now store).map
      (fun st => st.alert_thresholds) = .ok defaultThresholds) ∧
    (∀ src now store, ∃ st, init_mongo_manager src now store = .ok st) ∧
    init_sqlite_thresholds .noPath = .ok defaultThresholds ∧
    (∀ p, init_sqlite_thresholds (.missing p) = .ok defaultThresholds) ∧
    (∀ p, init_sqlite_thresholds (.invalid p) = .error .jsonDecode) := by
  refine ⟨fun now store => rfl, fun p now store => rfl, fun p now store => rfl,
    ?_, rfl, fun p => rfl, fun p => rfl⟩
  intro src now store
  cases src <;> exact ⟨_, rfl⟩

/-- Claim C9: round-trip through the metric store.  On a manager whose
`telemetry` collection is empty, `record_metric("latency", 120.5,
{"case": "t1"})` returns the new identifier and appends exactly one document;
querying the store for the last hour returns exactly that record, whose
`value` is 120.5 and whose metadata at key `"case"` is `"t1"`. -/
theorem claim_C9_metric_round_trip :
    ∀ (t : ℚ) (a2 b2 c2 d2 e2 : Bool) (nid : String) (th : ThDict) (m : Metrics)
      (al : List Alert) (ld : ℕ) (aldocs : List AlertDoc) (hd : List HealthDoc)
      (wu : Option String),
      record_metric ⟨true, a2, b2, c2, d2, e2, nid⟩ t "latency" (241 / 2)
          (some [("case", .s "t1")]) ⟨th, m, al, ld, ⟨[], aldocs, hd⟩, wu⟩ =
        .ok nid ⟨th, m, al, ld,
          ⟨[⟨"latency", 241 / 2, [("case", .s "t1")], t⟩], aldocs, hd⟩, wu⟩ ∧
      windowFilter (t - (1 : ℚ) * 3600) [⟨"latency", 241 / 2, [("case", .s "t1")], t⟩] =
        [⟨"latency", 241 / 2, [("case", .s "t1")], t⟩] ∧
      (⟨"latency", 241 / 2, [("case", .s "t1")], t⟩ : MetricRecord).value = 241 / 2 ∧
      PyDict.get [("case", .s "t1")] "case" = some (.s "t1") := by
  intro t a2 b2 c2 d2 e2 nid th m al ld aldocs hd wu
  refine ⟨?_, ?_, rfl, rfl⟩
  · simp [record_metric, tryExcept, save_telemetry]
  · norm_num [windowFilter, List.filter, sub_le_self_iff]

/-- Claim C10: `get_system_health` on the MongoDB-backed manager, called
with the lock free and a working store, returns the health snapshot and, as
a side effect, appends exactly that snapshot document to the `system_health`
collection; the in-memory running counters, alert list and thresholds are
unchanged. -/
theorem claim_C10_health_snapshot_write :
    ∀ (a2 b2 g2 f2 w2 : Bool) (nid : String) (now : ℚ) (th : ThDict) (m : Metrics)
      (al : List Alert) (mo : MongoState) (wu : Option String),
      ∃ h : HealthDoc,
        get_system_health false ⟨a2, b2, true, g2, f2, w2, nid⟩ now ⟨th, m, al, 0, mo, wu⟩ =
          .ok h ⟨th, m, al, 0, { mo with system_health := mo.system_health ++ [h] }, wu⟩ ∧
        h.total_operations = m.total_operations ∧
        h.error_count = m.error_count ∧
        h.uptime_seconds = now - m.start_time ∧
        h.total_cost_usd = m.total_cost ∧
        h.active_alerts = (al.filter (fun a => !a.resolved)).length := by
  intro a2 b2 g2 f2 w2 nid now th m al mo wu
  refine ⟨health_doc now ⟨th, m, al, 1, mo, wu⟩
      ((m.error_count : ℚ) / ((max 1 m.total_operations : ℕ) : ℚ))
      (m.total_latency / ((max 1 m.total_operations : ℕ) : ℚ)),
    ?_, rfl, rfl, rfl, rfl, rfl⟩
  unfold get_system_health withLock
  simp only [qdiv_max_one]
  unfold tryExcept insert_system_health
  simp [Res.bind]

/-- Claim C8: a metrics summary over a store with no records in the window
has an empty metrics mapping (every per-type bucket absent, not zero-filled)
and a reported total record count of 0; the sqlite variant's summary likewise
has an empty metrics mapping (it reports no total at all). -/
theorem claim_C8_empty_window_summary :
    (∀ (a2 b2 c2 g2 w2 : Bool) (nid : String) (now : ℚ) (hours : ℕ) (s : TState),
      (∀ r ∈ s.mongo.telemetry, r.timestamp < now - (hours : ℚ) * 3600) →
      get_metrics_summary ⟨a2, b2, c2, g2, true, w2, nid⟩ now hours s =
        .ok (some ⟨[],
          (s.mongo.alerts.filter
            (fun a => decide (now - (hours : ℚ) * 3600 ≤ a.timestamp))).foldl
            (fun acc a => sevUpdate acc a.severity) [],
          hours, 0⟩) s) ∧
    (∀ (store : List SqRow) (arows : List SqAlertRow) (now : ℚ) (hours : ℕ),
      (∀ r ∈ store, r.timestamp ≤ now - (hours : ℚ) * 3600) →
      (sqlite_metrics_summary store arows now hours).metrics = []) := by
  constructor
  · intro a2 b2 c2 g2 w2 nid now hours s hempty
    have hf : windowFilter (now - (hours : ℚ) * 3600) s.mongo.telemetry = [] := by
      unfold windowFilter
      refine List.filter_eq_nil_iff.mpr ?_
      intro r hr
      simpa using not_le.mpr (hempty r hr)
    unfold get_metrics_summary tryExcept
    simp [hf, applyAvg]
  · intro store arows now hours hempty
    have hf : store.filter (fun r => decide (now - (hours : ℚ) * 3600 < r.timestamp)) = [] := by
      refine List.filter_eq_nil_iff.mpr ?_
      intro r hr
      simpa using not_lt.mpr (hempty r hr)
    unfold sqlite_metrics_summary
    simp [hf]

/-- Claim C8 witness: the summary of a concrete fresh (empty) store over a
24-hour window has an empty metrics map, an empty alerts map and a zero
total, on both backends. -/
theorem claim_C8_witness :
    get_metrics_summary oracleOK 0 24 (freshState 0) =
      .ok (some ⟨[], [], 24, 0⟩) (freshState 0) ∧
    (sqlite_metrics_summary [] [] 0 24).metrics = [] := by
  constructor
  · have h1 := claim_C8_empty_window_summary.1 true true true true true "id0" 0 24
      (freshState 0) (by intro r hr; simp [freshState] at hr)
    simpa [freshState, oracleOK] using h1
  · exact claim_C8_empty_window_summary.2 [] [] 0 24 (by intro r hr; cases hr)

/-- Claim C2: contrary to the claim, consecutive failed operations do not
leave `error_count / total_operations = 1`.  On the real non-reentrant lock
the first `success=False` call already deadlocks; under the reentrant-lock
semantics the counter block assumes, each failed call increments
`error_count` twice (once in `record_operation` and once more inside the
`record_error` it calls), so after N failures the counters read `(2N, N)` and
the computed rate is 2, not 1 — shown here for N = 1 and N = 2, each failure
raising exactly one `high_error_rate` alert. -/
theorem claim_C2_consecutive_failures_rate :
    record_operation false oracleOK 0 0 0 false (freshState 0) = .hang ∧
    ((iterFailedOps true oracleOK 0 1 (freshState 0)).okState.map
      (fun t => (t.metrics.error_count, t.metrics.total_operations,
        t.alerts.map (fun a => a.alert_type)))) = some (2, 1, ["high_error_rate"]) ∧
    ((iterFailedOps true oracleOK 0 2 (freshState 0)).okState.map
      (fun t => (t.metrics.error_count, t.metrics.total_operations,
        t.alerts.map (fun a => a.alert_type)))) =
      some (4, 2, ["high_error_rate", "high_error_rate"]) ∧
    ((iterFailedOps true oracleOK 0 1 (freshState 0)).okState.map
      (fun t => qdiv (t.metrics.error_count : ℚ)
        ((max 1 t.metrics.total_operations : ℕ) : ℚ))) = some (some 2) ∧
    (2 : ℚ) ≠ 1 := by
  refine ⟨record_op_fail_hang oracleOK 0 0 0 (freshState 0) rfl, ?_, ?_, ?_, by norm_num⟩
  · norm_num [iterFailedOps, record_operation, withLock, record_error, freshState,
      Res.bind, record_metric, tryExcept, save_telemetry, oracleOK, qdiv, send_alert,
      save_alert, webhook_post, check_alert_conditions, triggeredAlerts, sendTriggered,
      Res.okState, thGet_default_error_rate, thGet_default_latency, thGet_default_cost,
      severityOf_high_error_rate]
  · norm_num [iterFailedOps, record_operation, withLock, record_error, freshState,
      Res.bind, record_metric, tryExcept, save_telemetry, oracleOK, qdiv, send_alert,
      save_alert, webhook_post, check_alert_conditions, triggeredAlerts, sendTriggered,
      Res.okState, thGet_default_error_rate, thGet_default_latency, thGet_default_cost,
      severityOf_high_error_rate]
  · norm_num [iterFailedOps, record_operation, withLock, record_error, freshState,
      Res.bind, record_metric, tryExcept, save_telemetry, oracleOK, qdiv, send_alert,
      save_alert, webhook_post, check_alert_conditions, triggeredAlerts, sendTriggered,
      Res.okState, thGet_default_error_rate, thGet_default_latency, thGet_default_cost,
      severityOf_high_error_rate]

/-- Claim C5: contrary to the claim, 100 callers invoking
`record_operation(success=False)` on one fresh manager cannot end with
`error_count = 100` and `total_operations = 100`: every such call runs its
whole body under the one instance lock, so the 100 calls serialize, and the
first one already deadlocks when `record_error` re-acquires the held
non-reentrant lock.  Even under the reentrant-lock semantics the claim
assumes, one failed call already moves the counters to `(2, 1)` — double
counting that makes `error_count = 100` unreachable for 100 failures. -/
theorem claim_C5_hundred_concurrent_failures :
    iterFailedOps false oracleOK 0 100 (freshState 0) = .hang ∧
    ((iterFailedOps true oracleOK 0 1 (freshState 0)).okState.map
      (fun t => (t.metrics.error_count, t.metrics.total_operations))) = some (2, 1) := by
  constructor
  · have h := iterFailedOps_hang oracleOK 0 99 (freshState 0) rfl
    norm_num at h
    exact h
  · norm_num [iterFailedOps, record_operation, withLock, record_error, freshState,
      Res.bind, record_metric, tryExcept, save_telemetry, oracleOK, qdiv, send_alert,
      save_alert, webhook_post, check_alert_conditions, triggeredAlerts, sendTriggered,
      Res.okState, thGet_default_error_rate, thGet_default_latency, thGet_default_cost,
      severityOf_high_error_rate]
